import Mathlib

/-!
Shallow embedding of `src/scrapegraphai/nodes/reasoning_node.py` (the
`ReasoningNode` pipeline step, node name "PromptRefiner") and proofs of the
specified properties.

Modelling conventions:
* The pipeline state is a Python `dict` from string keys to values; this node
  only ever reads and writes string values, so the state is an association
  list `List (String × String)` with dict semantics (unique keys are not
  assumed; lookup takes the first match, update rewrites the first match in
  place, as `dict.update` does on a dict).
* Python exceptions become an `Except` result.  `ExecError` carries the
  error classes the node itself can raise (`KeyError`, `AttributeError`,
  `IndexError`) plus `raised e` for an exception object `e` propagated
  unchanged from a collaborator.
* The external collaborators (`transform_schema` from `..utils`, whose code
  is outside the embedded file, and the LLM client) are injected as
  functions; the types `δ` (schema description, Python `schema.schema()`
  result), `σ` (simplified-schema structure) and `ε` (collaborator
  exception objects) are parameters.  `str(...)` on the simplified schema
  is the injected `strOf`.
* `execute` additionally returns the list of collaborator calls it made, in
  order, so that "invoked exactly once / not invoked" is a statement about
  the function's value.
* The `self.logger.info` call is an I/O side effect with no influence on
  the returned state and is not modelled.
-/

namespace Scrapegraphai

/-- Pipeline state: a Python dict from string keys to (here always string)
values, embedded as an association list. -/
abbrev StateMap := List (String × String)

/-- Python `d[key]` lookup (first matching key), `none` for a `KeyError`. -/
def StateMap.get? : StateMap → String → Option String
  | [], _ => none
  | (k, v) :: rest, key => if k = key then some v else StateMap.get? rest key

/-- Python `d.update({key: val})` for a single key: overwrite the first
binding of `key` in place, or append a new binding. -/
def StateMap.update : StateMap → String → String → StateMap
  | [], key, val => [(key, val)]
  | (k, v) :: rest, key, val =>
      if k = key then (k, val) :: rest
      else (k, v) :: StateMap.update rest key val

/-- The vendor class of a langchain chat-model client, as far as
`reasoning_node.py` distinguishes them (`isinstance(…, ChatOllama)`). -/
inductive ChatModelKind where
  | chatOpenAI
  | azureChatOpenAI
  | chatMistralAI
  | chatOllama
  | otherVendor
deriving DecidableEq, Repr

/-- A chat model response message; `StrOutputParser` extracts `content`. -/
structure AIMessage where
  content : String
deriving DecidableEq, Repr

/-- A langchain chat-model client: its vendor class, its `format` attribute
(the attribute `ChatOllama` uses to force JSON output; `none` when unset),
and its synchronous invocation behaviour (deterministic, possibly raising an
exception of type `ε`). -/
structure ChatModel (ε : Type) where
  kind : ChatModelKind
  format : Option String
  invoke : String → Except ε AIMessage

/-- langchain's `StrOutputParser`: parse a raw model response to plain text
by taking its `content`. -/
def StrOutputParser (msg : AIMessage) : String :=
  msg.content

/-- The configured output-schema object (a pydantic model class): its
`.schema()` method returns a description of type `δ`. -/
structure SchemaObject (δ : Type) where
  schemaDesc : δ

/-- The pydantic `.schema()` call on the output-schema object. -/
def SchemaObject.schema {δ : Type} (s : SchemaObject δ) : δ :=
  s.schemaDesc

/-- The external collaborators of the node: the schema-transform utility
`transform_schema` from `..utils` (its code is outside the embedded file;
the spec treats it as an out-of-scope collaborator
`(schema_description) -> simplified_schema_structure`), and Python `str` on
its structured result. -/
structure Collaborators (δ σ ε : Type) where
  transform_schema : δ → Except ε σ
  strOf : σ → String

/-- The `node_config` dict as `ReasoningNode.__init__` reads it: each
recognized key present (`some`) or absent (`none`).  `llm_model` is read
with `node_config["llm_model"]` (a `KeyError` when absent); every other key
is read with `node_config.get(…)`, which never raises. -/
structure NodeConfig (δ ε : Type) where
  llm_model : Option (ChatModel ε)
  verbose : Option Bool
  force : Option Bool
  additional_info : Option String
  schema : Option (SchemaObject δ)

/-- Modelled from the spec: the base-class constructor (`base_node.py` is
not under `src/`) "accepts an input-key specification string, a list of
output keys" and stores them together with the node name and node type; the
spec assigns it no other behaviour relevant to this node.  `ReasoningNode`
calls it as `super().__init__(node_name, "node", input, output, 2,
node_config)`. -/
structure BaseNode where
  node_name : String
  node_type : String
  input : String
  output : List String
  min_input_len : Nat

/-- The constructed `ReasoningNode`: the base-class fields plus the fields
`__init__` sets from `node_config`. -/
structure ReasoningNode (δ ε : Type) where
  base : BaseNode
  llm_model : ChatModel ε
  verbose : Bool
  force : Bool
  additional_info : Option String
  output_schema : Option (SchemaObject δ)

/-- `self.output`, stored by the base-class constructor. -/
def ReasoningNode.output {δ ε : Type} (node : ReasoningNode δ ε) : List String :=
  node.base.output

/-- The error classes execution and construction can produce: the node's own
`KeyError` / `AttributeError` / `IndexError`, and `raised e` for a
collaborator exception propagated unchanged. -/
inductive ExecError (ε : Type) where
  | keyError (key : String)
  | attributeError (msg : String)
  | indexError (msg : String)
  | raised (e : ε)
deriving DecidableEq, Repr

/-- `ReasoningNode.__init__(input, output, node_config, node_name)`.  In
source order: the base-class call; `node_config["llm_model"]` (a `KeyError`
when the key is absent); the `isinstance(…, ChatOllama)` check that sets
`self.llm_model.format = "json"`; then `verbose`, `force`,
`additional_info` and `schema`, all read with defaulting `get`.  The
`node_config is None` branches of `verbose`/`force` are unreachable here
because the `llm_model` subscript has already run on the dict. -/
def ReasoningNode.init {δ ε : Type} (input : String) (output : List String)
    (node_config : NodeConfig δ ε) (node_name : String) :
    Except (ExecError ε) (ReasoningNode δ ε) :=
  match node_config.llm_model with
  | none => .error (.keyError "llm_model")
  | some m =>
      let llm : ChatModel ε :=
        if m.kind = ChatModelKind.chatOllama then { m with format := some "json" }
        else m
      .ok
        { base :=
            { node_name := node_name
              node_type := "node"
              input := input
              output := output
              min_input_len := 2 }
          llm_model := llm
          verbose := (node_config.verbose).getD false
          force := (node_config.force).getD false
          additional_info := node_config.additional_info
          output_schema := node_config.schema }

/-- The base prompt template, the `TEMPLATE_REASONING` local of
`execute` (a Python triple-quoted string; its `\n` escapes are kept). -/
def TEMPLATE_REASONING : String :=
"
        **Task**: Analyze the user's request and the provided JSON schema to clearly map the desired data extraction.\n
        Break down the user's request into key components, and then explicitly connect these components to the\x20
        corresponding elements within the JSON schema.

        **User's Request**:
        {user_input}

        **Desired JSON Output Schema**:
        ```json
        {json_schema}
        ```

        **Analysis Instructions**:
        1. **Break Down User Request:**\x20
        * Clearly identify the core entities or data types the user is asking for.\n
        * Highlight any specific attributes or relationships mentioned in the request.\n

        2. **Map to JSON Schema**:
        * For each identified element in the user request, pinpoint its exact counterpart in the JSON schema.\n
        * Explain how the schema structure accommodates the user's needs.
        * If applicable, mention any schema elements that are not directly addressed in the user's request.\n

        This analysis will be used to guide the HTML structure examination and ultimately inform the code generation process.\n
        Please generate only the analysis and no other text.

        **Response**:
        "

/-- The context-aware prompt template, the `TEMPLATE_REASONING_WITH_CONTEXT`
local of `execute`: it adds the `**Additional Context**:` section with the
`{additional_context}` variable. -/
def TEMPLATE_REASONING_WITH_CONTEXT : String :=
"
        **Task**: Analyze the user's request, the provided JSON schema, and the additional context the user provided to clearly map the desired data extraction.\n
        Break down the user's request into key components, and then explicitly connect these components to the corresponding elements within the JSON schema.\n

        **User's Request**:
        {user_input}

        **Desired JSON Output Schema**:
        ```json
        {json_schema}
        ```

        **Additional Context**:
        {additional_context}

        **Analysis Instructions**:
        1. **Break Down User Request:**\x20
        * Clearly identify the core entities or data types the user is asking for.\n
        * Highlight any specific attributes or relationships mentioned in the request.\n

        2. **Map to JSON Schema**:
        * For each identified element in the user request, pinpoint its exact counterpart in the JSON schema.\n
        * Explain how the schema structure accommodates the user's needs.\n
        * If applicable, mention any schema elements that are not directly addressed in the user's request.\n

        This analysis will be used to guide the HTML structure examination and ultimately inform the code generation process.\n
        Please generate only the analysis and no other text.

        **Response**:
        "

mutual

/-- Scanner for `str.format`-style rendering, as langchain's
`PromptTemplate` (f-string format) performs it when the chain is invoked:
copy characters, and at `\x7b` switch to reading a variable name.  The node
always supplies every variable its chosen template references, so the
missing-variable error path of `str.format` is never reached and the
`getD ""` default in `formatVar` is dead. -/
def formatScan (vars : List (String × String)) : List Char → List Char
  | [] => []
  | c :: cs =>
      if c = '{' then formatVar vars [] cs
      else c :: formatScan vars cs

/-- Read a variable name up to the closing `\x7d`, substitute its binding,
and continue scanning. -/
def formatVar (vars : List (String × String)) (acc : List Char) :
    List Char → List Char
  | [] => []
  | c :: cs =>
      if c = '}' then
        ((StateMap.get? vars (String.mk acc)).getD "").data ++ formatScan vars cs
      else formatVar vars (acc ++ [c]) cs

end

/-- Render a template with variable bindings: `template.format(**vars)`. -/
def formatTemplate (template : String) (vars : List (String × String)) : String :=
  String.mk (formatScan vars template.data)

/-- Template selection in `execute`: `if self.additional_info is not None`
chooses the context-aware template, else the base one.  The state argument
does not occur. -/
def ReasoningNode.selectedTemplate {δ ε : Type} (node : ReasoningNode δ ε) : String :=
  if node.additional_info.isSome then TEMPLATE_REASONING_WITH_CONTEXT
  else TEMPLATE_REASONING

/-- The `partial_variables` dict passed to `PromptTemplate` in `execute`:
`user_input`, `json_schema` (the stringified simplified schema) and, in the
context-aware branch only, `additional_context` bound to
`self.additional_info`. -/
def ReasoningNode.promptVariables {δ ε : Type} (node : ReasoningNode δ ε)
    (user_prompt : String) (json_schema : String) : List (String × String) :=
  match node.additional_info with
  | some info =>
      [("user_input", user_prompt), ("json_schema", json_schema),
        ("additional_context", info)]
  | none => [("user_input", user_prompt), ("json_schema", json_schema)]

/-- One collaborator invocation made during `execute`, recorded in order:
a `transform_schema` call with its argument, or an LLM-chain invocation with
the rendered prompt. -/
inductive CollabCall (δ : Type) where
  | transformCall (arg : δ)
  | llmCall (prompt : String)
deriving DecidableEq, Repr

/-- `ReasoningNode.execute(state)`, in source order: read
`state['user_prompt']` (a `KeyError` when absent); compute
`transform_schema(self.output_schema.schema())` (an `AttributeError` when
`schema` was not configured, since `.schema()` is called on `None`); select
the template and build the `PromptTemplate` with its `partial_variables`;
run `prompt | llm_model | StrOutputParser` on it; finally
`state.update({self.output[0]: refined_prompt})` (an `IndexError` when the
output list is empty) and return the state.  The first component lists the
collaborator calls made, in order. -/
def ReasoningNode.execute {δ σ ε : Type} (node : ReasoningNode δ ε)
    (collab : Collaborators δ σ ε) (state : StateMap) :
    List (CollabCall δ) × Except (ExecError ε) StateMap :=
  match StateMap.get? state "user_prompt" with
  | none => ([], .error (.keyError "user_prompt"))
  | some user_prompt =>
      match node.output_schema with
      | none =>
          ([], .error (.attributeError
            "NoneType object has no attribute schema"))
      | some schemaObj =>
          let desc := schemaObj.schema
          match collab.transform_schema desc with
          | .error e => ([.transformCall desc], .error (.raised e))
          | .ok simplefied_schema =>
              let rendered := formatTemplate node.selectedTemplate
                (node.promptVariables user_prompt (collab.strOf simplefied_schema))
              match node.llm_model.invoke rendered with
              | .error e =>
                  ([.transformCall desc, .llmCall rendered], .error (.raised e))
              | .ok msg =>
                  let refined_prompt := StrOutputParser msg
                  match node.output with
                  | [] =>
                      ([.transformCall desc, .llmCall rendered],
                        .error (.indexError "list index out of range"))
                  | outKey :: _ =>
                      ([.transformCall desc, .llmCall rendered],
                        .ok (StateMap.update state outKey refined_prompt))

/-- Substring test on character lists: does `pat` occur contiguously? -/
def listContainsSub (pat : List Char) : List Char → Bool
  | [] => pat.isEmpty
  | c :: cs => List.isPrefixOf pat (c :: cs) || listContainsSub pat cs

/-- Substring test on strings, used to state which template carries the
`**Additional Context**:` section. -/
def strContainsSub (t pat : String) : Bool :=
  listContainsSub pat.data t.data

/-- How many `transform_schema` invocations a call trace records. -/
def countTransformCalls {δ : Type} : List (CollabCall δ) → Nat
  | [] => 0
  | .transformCall _ :: rest => countTransformCalls rest + 1
  | .llmCall _ :: rest => countTransformCalls rest

/-- How many LLM-chain invocations a call trace records. -/
def countLLMCalls {δ : Type} : List (CollabCall δ) → Nat
  | [] => 0
  | .transformCall _ :: rest => countLLMCalls rest
  | .llmCall _ :: rest => countLLMCalls rest + 1

theorem StateMap.get?_update_self (st : StateMap) (key val : String) :
    StateMap.get? (StateMap.update st key val) key = some val := by
  induction st with
  | nil => simp [StateMap.update, StateMap.get?]
  | cons kv rest ih =>
      obtain ⟨k, v⟩ := kv
      by_cases h : k = key
      · simp [StateMap.update, StateMap.get?, h]
      · simp [StateMap.update, StateMap.get?, h, ih]

theorem StateMap.get?_update_other (st : StateMap) (key val other : String)
    (h : other ≠ key) :
    StateMap.get? (StateMap.update st key val) other = StateMap.get? st other := by
  induction st with
  | nil => simp [StateMap.update, StateMap.get?, Ne.symm h]
  | cons kv rest ih =>
      obtain ⟨k, v⟩ := kv
      by_cases hk : k = key
      · subst hk
        simp [StateMap.update, StateMap.get?, Ne.symm h]
      · simp [StateMap.update, StateMap.get?, hk, ih]

/-- Every prompt that `execute` sends to the LLM chain is a rendering of the
node's selected template over the node's prompt variables; in particular the
template does not vary with the state. -/
theorem llmCall_mem_execute {δ σ ε : Type} (node : ReasoningNode δ ε)
    (collab : Collaborators δ σ ε) (state : StateMap) (p : String)
    (hmem : CollabCall.llmCall p ∈ (node.execute collab state).1) :
    ∃ up s, StateMap.get? state "user_prompt" = some up ∧
      p = formatTemplate node.selectedTemplate (node.promptVariables up s) := by
  rcases hup : StateMap.get? state "user_prompt" with _ | up
  · simp [ReasoningNode.execute, hup] at hmem
  · rcases hsch : node.output_schema with _ | sch
    · simp [ReasoningNode.execute, hup, hsch] at hmem
    · rcases ht : collab.transform_schema sch.schema with e | v
      · simp [ReasoningNode.execute, hup, hsch, ht] at hmem
      · rcases hllm : node.llm_model.invoke (formatTemplate node.selectedTemplate
            (node.promptVariables up (collab.strOf v))) with e | msg
        · simp [ReasoningNode.execute, hup, hsch, ht, hllm] at hmem
          exact ⟨up, collab.strOf v, rfl, hmem⟩
        · rcases hout : node.output with _ | ⟨k, ks⟩ <;>
            simp [ReasoningNode.execute, hup, hsch, ht, hllm, hout] at hmem <;>
            exact ⟨up, collab.strOf v, rfl, hmem⟩

/-- A deterministic stub LLM client for the concrete witnesses: it answers
every prompt with the fixed message "ANALYSIS". -/
def stubLLM : ChatModel String :=
  { kind := .chatOpenAI, format := none, invoke := fun _ => .ok ⟨"ANALYSIS"⟩ }

/-- A stub LLM client whose invocation always raises. -/
def failLLM : ChatModel String :=
  { kind := .chatOpenAI, format := none, invoke := fun _ => .error "llm failure" }

/-- A stub client of the ChatOllama variant. -/
def ollamaLLM : ChatModel String :=
  { kind := .chatOllama, format := none, invoke := fun _ => .ok ⟨"ANALYSIS"⟩ }

/-- Deterministic stub collaborators: the transform tags its argument and
`str` is the identity on the already-string result. -/
def stubCollab : Collaborators String String String :=
  { transform_schema := fun d => .ok ("T:" ++ d), strOf := id }

/-- Stub collaborators whose schema transform always raises. -/
def failCollab : Collaborators String String String :=
  { transform_schema := fun _ => .error "transform failure", strOf := id }

/-- A concrete constructed node: no additional context, schema configured,
one output key. -/
def stubNode : ReasoningNode String String :=
  { base :=
      { node_name := "PromptRefiner"
        node_type := "node"
        input := "user_prompt"
        output := ["refined_prompt"]
        min_input_len := 2 }
    llm_model := stubLLM
    verbose := false
    force := false
    additional_info := none
    output_schema := some ⟨"DESC"⟩ }

/-- The stub node with the always-failing LLM client. -/
def failLLMNode : ReasoningNode String String :=
  { stubNode with llm_model := failLLM }

/-- The stub node with additional context configured as the empty string. -/
def emptyCtxNode : ReasoningNode String String :=
  { stubNode with additional_info := some "" }

/-- A complete configuration for the stub node. -/
def stubConfig : NodeConfig String String :=
  { llm_model := some stubLLM
    verbose := none
    force := none
    additional_info := none
    schema := some ⟨"DESC"⟩ }

/-- The stub configuration without the schema entry. -/
def configNoSchema : NodeConfig String String :=
  { stubConfig with schema := none }

/-- The stub configuration without the llm_model entry. -/
def configNoLLM : NodeConfig String String :=
  { stubConfig with llm_model := none }

/-- The stub configuration with the ChatOllama-variant client. -/
def ollamaConfig : NodeConfig String String :=
  { stubConfig with llm_model := some ollamaLLM }

set_option maxRecDepth 80000 in
/-- C1: exactly one of the two prompt templates is selected per execution,
determined solely by the configured additional-context value: a configured
string (in particular a non-empty one) selects the context-aware template,
which contains the Additional Context section, while an unconfigured value
selects the base template, which does not; and every prompt `execute` sends
to the LLM is a rendering of that same selected template, whatever the
state argument is (the selection itself never reads the state). -/
theorem template_choice_by_additional_info_only {δ ε : Type}
    (node : ReasoningNode δ ε) :
    (∀ info : String, node.additional_info = some info →
        node.selectedTemplate = TEMPLATE_REASONING_WITH_CONTEXT) ∧
    (node.additional_info = none → node.selectedTemplate = TEMPLATE_REASONING) ∧
    strContainsSub TEMPLATE_REASONING_WITH_CONTEXT "**Additional Context**:" = true ∧
    strContainsSub TEMPLATE_REASONING "**Additional Context**:" = false ∧
    (∀ (σ : Type) (collab : Collaborators δ σ ε) (state : StateMap) (p : String),
        CollabCall.llmCall p ∈ (node.execute collab state).1 →
        ∃ vars, p = formatTemplate node.selectedTemplate vars) := by
  refine ⟨?_, ?_, by decide, by decide, ?_⟩
  · intro info h
    simp [ReasoningNode.selectedTemplate, h]
  · intro h
    simp [ReasoningNode.selectedTemplate, h]
  · intro σ collab state p hmem
    obtain ⟨up, s, _, hp⟩ := llmCall_mem_execute node collab state p hmem
    exact ⟨node.promptVariables up s, hp⟩

/-- C10: with additional_info configured as the empty string, the
context-aware template is still selected, and the additional-context prompt
variable is bound to the empty string: the selection tests only whether the
configured value is None, never whether the string is empty. -/
theorem empty_additional_info_selects_context_template {δ ε : Type}
    (node : ReasoningNode δ ε) (up json : String)
    (h : node.additional_info = some "") :
    node.selectedTemplate = TEMPLATE_REASONING_WITH_CONTEXT ∧
    StateMap.get? (node.promptVariables up json) "additional_context" = some "" := by
  constructor
  · simp [ReasoningNode.selectedTemplate, h]
  · simp [ReasoningNode.promptVariables, h, StateMap.get?]

/-- Concrete run of the C10 theorem on the stub node configured with the
empty additional-context string. -/
theorem empty_additional_info_selects_context_template_witness :
    emptyCtxNode.selectedTemplate = TEMPLATE_REASONING_WITH_CONTEXT ∧
    StateMap.get? (emptyCtxNode.promptVariables "hi" "JS") "additional_context" =
      some "" :=
  empty_additional_info_selects_context_template emptyCtxNode "hi" "JS" rfl

/-- C3: when the state lacks the key user_prompt, execute fails with a
KeyError for it, and the call trace is empty: neither the schema-transform
utility nor the LLM client was invoked before the failure. -/
theorem execute_missing_user_prompt_fails {δ σ ε : Type} (node : ReasoningNode δ ε)
    (collab : Collaborators δ σ ε) (state : StateMap)
    (h : StateMap.get? state "user_prompt" = none) :
    node.execute collab state = ([], .error (.keyError "user_prompt")) := by
  simp [ReasoningNode.execute, h]

/-- Concrete run of the C3 theorem on a state without user_prompt. -/
theorem execute_missing_user_prompt_fails_witness :
    stubNode.execute stubCollab [("url", "https://example.com")] =
      ([], .error (.keyError "user_prompt")) :=
  execute_missing_user_prompt_fails stubNode stubCollab
    [("url", "https://example.com")] rfl

/-- C9: execute is a deterministic function of the node, the collaborators
and the state: two calls on identical states yield the identical call trace
and the identical result (output text and resulting state included). -/
theorem execute_deterministic {δ σ ε : Type} (node : ReasoningNode δ ε)
    (collab : Collaborators δ σ ε) (state₁ state₂ : StateMap)
    (h : state₁ = state₂) :
    node.execute collab state₁ = node.execute collab state₂ := by
  rw [h]

/-- Concrete run of the C9 theorem: two executions of the stub node on the
same state coincide. -/
theorem execute_deterministic_witness :
    stubNode.execute stubCollab [("user_prompt", "extract stuff")] =
      stubNode.execute stubCollab [("user_prompt", "extract stuff")] :=
  execute_deterministic stubNode stubCollab _ _ rfl

/-- C2: on a state carrying user_prompt, with the schema configured, a
non-empty output-key list and succeeding collaborators, execute returns the
full prior state with exactly one key — the first configured output key —
added or overwritten, bound to the LLM's parsed text output; that key reads
back the parsed output and every other key keeps its prior value. -/
theorem execute_updates_only_output_key {δ σ ε : Type} (node : ReasoningNode δ ε)
    (collab : Collaborators δ σ ε) (state : StateMap) (up : String)
    (sch : SchemaObject δ) (v : σ) (msg : AIMessage) (outKey : String)
    (restKeys : List String)
    (h_up : StateMap.get? state "user_prompt" = some up)
    (h_sch : node.output_schema = some sch)
    (h_t : collab.transform_schema sch.schema = Except.ok v)
    (h_llm : node.llm_model.invoke (formatTemplate node.selectedTemplate
        (node.promptVariables up (collab.strOf v))) = Except.ok msg)
    (h_out : node.output = outKey :: restKeys) :
    (node.execute collab state).2 =
      Except.ok (StateMap.update state outKey (StrOutputParser msg)) ∧
    StateMap.get? (StateMap.update state outKey (StrOutputParser msg)) outKey =
      some (StrOutputParser msg) ∧
    (∀ k, k ≠ outKey →
      StateMap.get? (StateMap.update state outKey (StrOutputParser msg)) k =
        StateMap.get? state k) := by
  refine ⟨?_, StateMap.get?_update_self state outKey (StrOutputParser msg),
    fun k hk => StateMap.get?_update_other state outKey (StrOutputParser msg) k hk⟩
  simp [ReasoningNode.execute, h_up, h_sch, h_t, h_llm, h_out]

/-- Concrete run of the C2 theorem on the stub node: the state keeps its
prior key and gains refined_prompt bound to the stub LLM's text. -/
theorem execute_updates_only_output_key_witness :
    (stubNode.execute stubCollab
        [("user_prompt", "extract product names and prices")]).2 =
      Except.ok (StateMap.update [("user_prompt", "extract product names and prices")]
        "refined_prompt" (StrOutputParser ⟨"ANALYSIS"⟩)) ∧
    StateMap.get? (StateMap.update [("user_prompt", "extract product names and prices")]
        "refined_prompt" (StrOutputParser ⟨"ANALYSIS"⟩)) "refined_prompt" =
      some (StrOutputParser ⟨"ANALYSIS"⟩) ∧
    (∀ k, k ≠ "refined_prompt" →
      StateMap.get? (StateMap.update [("user_prompt", "extract product names and prices")]
          "refined_prompt" (StrOutputParser ⟨"ANALYSIS"⟩)) k =
        StateMap.get? [("user_prompt", "extract product names and prices")] k) :=
  execute_updates_only_output_key stubNode stubCollab
    [("user_prompt", "extract product names and prices")]
    "extract product names and prices" ⟨"DESC"⟩ "T:DESC" ⟨"ANALYSIS"⟩
    "refined_prompt" [] rfl rfl rfl rfl rfl

/-- C5: an error raised by the schema-transform utility or by the LLM chain
propagates unchanged to the caller as `raised e` — no catching, retry or
fallback — and the result is an error, so the state with the output key
written is never returned. -/
theorem execute_propagates_collaborator_failures {δ σ ε : Type}
    (node : ReasoningNode δ ε) (collab : Collaborators δ σ ε) (state : StateMap)
    (up : String) (sch : SchemaObject δ)
    (h_up : StateMap.get? state "user_prompt" = some up)
    (h_sch : node.output_schema = some sch) :
    (∀ e, collab.transform_schema sch.schema = Except.error e →
        node.execute collab state =
          ([CollabCall.transformCall sch.schema],
            Except.error (ExecError.raised e))) ∧
    (∀ v e, collab.transform_schema sch.schema = Except.ok v →
        node.llm_model.invoke (formatTemplate node.selectedTemplate
          (node.promptVariables up (collab.strOf v))) = Except.error e →
        node.execute collab state =
          ([CollabCall.transformCall sch.schema,
            CollabCall.llmCall (formatTemplate node.selectedTemplate
              (node.promptVariables up (collab.strOf v)))],
            Except.error (ExecError.raised e))) := by
  constructor
  · intro e ht
    simp [ReasoningNode.execute, h_up, h_sch, ht]
  · intro v e ht hllm
    simp [ReasoningNode.execute, h_up, h_sch, ht, hllm]

/-- Concrete runs of the C5 theorem: the failing transform's exception and
the failing LLM's exception each come back unchanged inside the error. -/
theorem execute_propagates_collaborator_failures_witness :
    stubNode.execute failCollab [("user_prompt", "hi")] =
      ([CollabCall.transformCall "DESC"],
        Except.error (ExecError.raised "transform failure")) ∧
    failLLMNode.execute stubCollab [("user_prompt", "hi")] =
      ([CollabCall.transformCall "DESC",
        CollabCall.llmCall (formatTemplate failLLMNode.selectedTemplate
          (failLLMNode.promptVariables "hi" (stubCollab.strOf "T:DESC")))],
        Except.error (ExecError.raised "llm failure")) :=
  ⟨(execute_propagates_collaborator_failures stubNode failCollab
      [("user_prompt", "hi")] "hi" ⟨"DESC"⟩ rfl rfl).1 "transform failure" rfl,
    (execute_propagates_collaborator_failures failLLMNode stubCollab
      [("user_prompt", "hi")] "hi" ⟨"DESC"⟩ rfl rfl).2 "T:DESC" "llm failure" rfl rfl⟩

/-- C6: during one execution the schema-transform utility is applied exactly
once (to the configured schema's description), the json_schema prompt
variable is bound to the stringification of its result, and the prompt sent
to the LLM is the selected template rendered over exactly those variables. -/
theorem json_schema_binding_is_transformed {δ σ ε : Type} (node : ReasoningNode δ ε)
    (collab : Collaborators δ σ ε) (state : StateMap) (up : String)
    (sch : SchemaObject δ) (v : σ)
    (h_up : StateMap.get? state "user_prompt" = some up)
    (h_sch : node.output_schema = some sch)
    (h_t : collab.transform_schema sch.schema = Except.ok v) :
    countTransformCalls (node.execute collab state).1 = 1 ∧
    StateMap.get? (node.promptVariables up (collab.strOf v)) "json_schema" =
      some (collab.strOf v) ∧
    (∀ p, CollabCall.llmCall p ∈ (node.execute collab state).1 →
      p = formatTemplate node.selectedTemplate
        (node.promptVariables up (collab.strOf v))) := by
  refine ⟨?_, ?_, ?_⟩
  · rcases hllm : node.llm_model.invoke (formatTemplate node.selectedTemplate
        (node.promptVariables up (collab.strOf v))) with e | msg
    · simp [ReasoningNode.execute, h_up, h_sch, h_t, hllm, countTransformCalls]
    · rcases hout : node.output with _ | ⟨k, ks⟩ <;>
        simp [ReasoningNode.execute, h_up, h_sch, h_t, hllm, hout,
          countTransformCalls]
  · cases hinfo : node.additional_info <;>
      simp [ReasoningNode.promptVariables, hinfo, StateMap.get?]
  · intro p hmem
    rcases hllm : node.llm_model.invoke (formatTemplate node.selectedTemplate
        (node.promptVariables up (collab.strOf v))) with e | msg
    · simp [ReasoningNode.execute, h_up, h_sch, h_t, hllm] at hmem
      exact hmem
    · rcases hout : node.output with _ | ⟨k, ks⟩ <;>
        simp [ReasoningNode.execute, h_up, h_sch, h_t, hllm, hout] at hmem <;>
        exact hmem

/-- Concrete run of the C6 theorem on the stub node: one transform call, and
the json_schema variable bound to the stub transform's stringified result. -/
theorem json_schema_binding_is_transformed_witness :
    countTransformCalls (stubNode.execute stubCollab
        [("user_prompt", "extract stuff")]).1 = 1 ∧
    StateMap.get? (stubNode.promptVariables "extract stuff" "T:DESC")
      "json_schema" = some "T:DESC" ∧
    (∀ p, CollabCall.llmCall p ∈
        (stubNode.execute stubCollab [("user_prompt", "extract stuff")]).1 →
      p = formatTemplate stubNode.selectedTemplate
        (stubNode.promptVariables "extract stuff" "T:DESC")) :=
  json_schema_binding_is_transformed stubNode stubCollab
    [("user_prompt", "extract stuff")] "extract stuff" ⟨"DESC"⟩ "T:DESC"
    rfl rfl rfl

/-- C8: with additional_info unconfigured (None) and user_prompt present,
one call to execute produces exactly the two-element call trace — one
schema-transform invocation followed by one LLM invocation — so each
collaborator is called exactly once, neither repeated nor skipped. -/
theorem execute_calls_each_collaborator_once {δ σ ε : Type}
    (node : ReasoningNode δ ε) (collab : Collaborators δ σ ε) (state : StateMap)
    (up : String) (sch : SchemaObject δ) (v : σ)
    (h_info : node.additional_info = none)
    (h_up : StateMap.get? state "user_prompt" = some up)
    (h_sch : node.output_schema = some sch)
    (h_t : collab.transform_schema sch.schema = Except.ok v) :
    (node.execute collab state).1 =
      [CollabCall.transformCall sch.schema,
        CollabCall.llmCall (formatTemplate TEMPLATE_REASONING
          (node.promptVariables up (collab.strOf v)))] ∧
    countTransformCalls (node.execute collab state).1 = 1 ∧
    countLLMCalls (node.execute collab state).1 = 1 := by
  have hsel : node.selectedTemplate = TEMPLATE_REASONING := by
    simp [ReasoningNode.selectedTemplate, h_info]
  have htrace : (node.execute collab state).1 =
      [CollabCall.transformCall sch.schema,
        CollabCall.llmCall (formatTemplate TEMPLATE_REASONING
          (node.promptVariables up (collab.strOf v)))] := by
    rcases hllm : node.llm_model.invoke (formatTemplate TEMPLATE_REASONING
        (node.promptVariables up (collab.strOf v))) with e | msg
    · simp [ReasoningNode.execute, h_up, h_sch, h_t, hsel, hllm]
    · rcases hout : node.output with _ | ⟨k, ks⟩ <;>
        simp [ReasoningNode.execute, h_up, h_sch, h_t, hsel, hllm, hout]
  refine ⟨htrace, ?_, ?_⟩ <;>
    rw [htrace] <;> simp [countTransformCalls, countLLMCalls]

/-- Concrete run of the C8 theorem on the stub node with additional_info
None and the specified example state. -/
theorem execute_calls_each_collaborator_once_witness :
    (stubNode.execute stubCollab
        [("user_prompt", "extract product names and prices")]).1 =
      [CollabCall.transformCall "DESC",
        CollabCall.llmCall (formatTemplate TEMPLATE_REASONING
          (stubNode.promptVariables "extract product names and prices" "T:DESC"))] ∧
    countTransformCalls (stubNode.execute stubCollab
        [("user_prompt", "extract product names and prices")]).1 = 1 ∧
    countLLMCalls (stubNode.execute stubCollab
        [("user_prompt", "extract product names and prices")]).1 = 1 :=
  execute_calls_each_collaborator_once stubNode stubCollab
    [("user_prompt", "extract product names and prices")]
    "extract product names and prices" ⟨"DESC"⟩ "T:DESC" rfl rfl rfl rfl

/-- C4 counterexample: a configuration carrying the LLM client but no schema
entry is still constructed successfully (the source reads the schema with a
defaulting `node_config.get("schema")`), refuting the claim that a missing
schema fails construction with a lookup error. -/
theorem init_missing_schema_still_constructs :
    ∃ node, ReasoningNode.init "user_prompt" ["refined_prompt"] configNoSchema
      "PromptRefiner" = Except.ok node ∧ node.output_schema = none :=
  ⟨_, rfl, rfl⟩

/-- C4 amended: construction fails — with KeyError "llm_model" — precisely
when the configuration lacks the llm_model entry; a configuration lacking
only the schema entry constructs a node whose output_schema is None, and
that absence surfaces only at execute time, as an AttributeError raised
before any collaborator call. -/
theorem init_fails_iff_missing_llm_model {δ ε : Type} (input : String)
    (output : List String) (cfg : NodeConfig δ ε) (node_name : String) :
    ((∃ err, ReasoningNode.init input output cfg node_name = Except.error err) ↔
      cfg.llm_model = none) ∧
    (cfg.llm_model = none →
      ReasoningNode.init input output cfg node_name =
        Except.error (ExecError.keyError "llm_model")) ∧
    (∀ node : ReasoningNode δ ε,
      ReasoningNode.init input output cfg node_name = Except.ok node →
      node.output_schema = cfg.schema) ∧
    (∀ (σ : Type) (collab : Collaborators δ σ ε) (node : ReasoningNode δ ε)
        (state : StateMap) (up : String),
      node.output_schema = none →
      StateMap.get? state "user_prompt" = some up →
      node.execute collab state =
        ([], Except.error (ExecError.attributeError
          "NoneType object has no attribute schema"))) := by
  refine ⟨?_, ?_, ?_, ?_⟩
  · constructor
    · rintro ⟨err, herr⟩
      rcases hllm : cfg.llm_model with _ | m
      · rfl
      · simp [ReasoningNode.init, hllm] at herr
    · intro hnone
      exact ⟨ExecError.keyError "llm_model", by simp [ReasoningNode.init, hnone]⟩
  · intro hnone
    simp [ReasoningNode.init, hnone]
  · intro node hok
    rcases hllm : cfg.llm_model with _ | m
    · simp [ReasoningNode.init, hllm] at hok
    · simp [ReasoningNode.init, hllm] at hok
      rw [← hok]
  · intro σ collab node state up hsch hup
    simp [ReasoningNode.execute, hup, hsch]

/-- C7: when the configured client is of the ChatOllama (local JSON-mode
capable) variant, construction itself — before any execution — sets the
client's format attribute to "json"; for a client of any other variant the
format attribute is left exactly as it was; in both cases the client's kind
and invocation behaviour are unchanged. -/
theorem init_sets_json_format_for_chatOllama {δ ε : Type} (input : String)
    (output : List String) (cfg : NodeConfig δ ε) (node_name : String)
    (m : ChatModel ε) (h : cfg.llm_model = some m) :
    ∃ node, ReasoningNode.init input output cfg node_name = Except.ok node ∧
      node.llm_model.kind = m.kind ∧
      node.llm_model.invoke = m.invoke ∧
      (m.kind = ChatModelKind.chatOllama → node.llm_model.format = some "json") ∧
      (m.kind ≠ ChatModelKind.chatOllama → node.llm_model.format = m.format) := by
  have hinit : ReasoningNode.init input output cfg node_name = Except.ok
      { base :=
          { node_name := node_name
            node_type := "node"
            input := input
            output := output
            min_input_len := 2 }
        llm_model := if m.kind = ChatModelKind.chatOllama
          then { m with format := some "json" } else m
        verbose := (cfg.verbose).getD false
        force := (cfg.force).getD false
        additional_info := cfg.additional_info
        output_schema := cfg.schema } := by
    simp [ReasoningNode.init, h]
  refine ⟨_, hinit, ?_, ?_, ?_, ?_⟩
  · by_cases hk : m.kind = ChatModelKind.chatOllama <;> simp [hk]
  · by_cases hk : m.kind = ChatModelKind.chatOllama <;> simp [hk]
  · intro hc
    simp [hc]
  · intro hne
    simp [hne]

/-- Concrete runs of the C7 theorem: construction from the ChatOllama stub
forces format to "json"; from the ChatOpenAI stub it leaves format unset. -/
theorem init_sets_json_format_for_chatOllama_witness :
    (∃ node, ReasoningNode.init "user_prompt" ["refined_prompt"] ollamaConfig
        "PromptRefiner" = Except.ok node ∧
      node.llm_model.kind = ollamaLLM.kind ∧
      node.llm_model.invoke = ollamaLLM.invoke ∧
      (ollamaLLM.kind = ChatModelKind.chatOllama →
        node.llm_model.format = some "json") ∧
      (ollamaLLM.kind ≠ ChatModelKind.chatOllama →
        node.llm_model.format = ollamaLLM.format)) ∧
    (∃ node, ReasoningNode.init "user_prompt" ["refined_prompt"] stubConfig
        "PromptRefiner" = Except.ok node ∧
      node.llm_model.kind = stubLLM.kind ∧
      node.llm_model.invoke = stubLLM.invoke ∧
      (stubLLM.kind = ChatModelKind.chatOllama →
        node.llm_model.format = some "json") ∧
      (stubLLM.kind ≠ ChatModelKind.chatOllama →
        node.llm_model.format = stubLLM.format)) :=
  ⟨init_sets_json_format_for_chatOllama "user_prompt" ["refined_prompt"]
      ollamaConfig "PromptRefiner" ollamaLLM rfl,
    init_sets_json_format_for_chatOllama "user_prompt" ["refined_prompt"]
      stubConfig "PromptRefiner" stubLLM rfl⟩

end Scrapegraphai
